import Mathlib

/-!
Verification of the Databricks API client layer and its async-to-sync bridge
(`mcp_servers/databricks/auth.py`, `mcp_servers/databricks/api/*.py`,
`data_scientist_agent/mcp_client.py`) via a shallow embedding.

Modelling conventions:
* Python dictionaries / JSON values are modelled by `JVal`; `dict.get` is
  association-list lookup (`JVal.dictGet`).  `dict.get` applied to a non-dict
  value raises `AttributeError` in Python; the embedding returns `none` /
  a modelled message in the places where this can occur - no claim depends
  on that corner.
* A coroutine that can raise is a value of `Except String α`, the `String`
  being `str(exc)` of the raised exception (the only use the code makes of
  the exception object in its handlers).
* Network traffic is made observable: client operations return both their
  outcome and the list of HTTP requests they issued (`HttpReq`).  Wall-clock
  time inside a polling loop is idealised: each HTTP call is instantaneous,
  so the n-th poll of a loop with sleep interval `s` happens `s * n` seconds
  after the loop starts; this is recorded in `HttpReq.time`.
-/

/-- JSON-like values, modelling Python dicts/lists/strings as they flow
through the client layer. -/
inductive JVal where
  | str (s : String)
  | int (n : Int)
  | bool (b : Bool)
  | null
  | arr (elems : List JVal)
  | obj (fields : List (String × JVal))

/-- Python `d.get(key)` on a dict; `none` for a missing key or a non-dict
receiver (where CPython would raise `AttributeError`; not exercised by any
claim). -/
def JVal.dictGet : JVal → String → Option JVal
  | .obj fields, key => fields.lookup key
  | _, _ => none

/-- Python truthiness of a `JVal` (`if not x` tests). -/
def jvalTruthy : JVal → Bool
  | .str s => !(s == "")
  | .int n => !(n == 0)
  | .bool b => b
  | .null => false
  | .arr elems => !elems.isEmpty
  | .obj fields => !fields.isEmpty

/-- Python `str()` as used in f-strings building request paths; only string
ids occur in practice, the other cases are CPython's renderings (container
rendering abbreviated, unused). -/
def jvalToStr : JVal → String
  | .str s => s
  | .int n => toString n
  | .bool b => cond b "True" "False"
  | .null => "None"
  | .arr _ => "[...]"
  | .obj _ => "\x7b...\x7d"

/-- The code point of `c` after Python `str.lower()` (ASCII case folding;
the paths and queries handled here are ASCII). -/
def lowerCode (c : Char) : Nat :=
  if 65 ≤ c.toNat ∧ c.toNat ≤ 90 then c.toNat + 32 else c.toNat

/-- The code points of `s.lower()`. -/
def lowerCodes (s : String) : List Nat :=
  s.data.map lowerCode

/-- Does `needle` occur at the head of `hay`? (helper for the Python `in`
operator on code-point lists). -/
def codesStartWith : List Nat → List Nat → Bool
  | [], _ => true
  | _ :: _, [] => false
  | a :: as, b :: bs => a == b && codesStartWith as bs

/-- Does `needle` occur contiguously inside `hay`? -/
def codesContain (needle hay : List Nat) : Bool :=
  match hay with
  | [] => needle.isEmpty
  | _ :: rest => codesStartWith needle hay || codesContain needle rest

/-- Python `needle.lower() in hay.lower()`. -/
def pyInLower (needle hay : String) : Bool :=
  codesContain (lowerCodes needle) (lowerCodes hay)

/-- An HTTP request issued by the client layer.  `args` models query
parameters (GET) or the JSON body (POST); `time` is the idealised issue
time in seconds from the start of the enclosing operation (0 for
non-polling operations, where timing is irrelevant). -/
structure HttpReq where
  method : String
  path : String
  args : List (String × JVal)
  time : Nat

/- ------------------------------------------------------------------ -/
/- Token provider: mcp_servers/databricks/auth.py, ServicePrincipalAuth -/
/- ------------------------------------------------------------------ -/

/-- The mutable state of `ServicePrincipalAuth`: `_access_token` and
`_token_expires_at` (`__init__` sets them to `None` and `0`). -/
structure AuthState where
  accessToken : Option String
  tokenExpiresAt : Int

/-- Source: `ServicePrincipalAuth.__init__`. -/
def initialAuthState : AuthState := ⟨none, 0⟩

/-- Source: `_acquire_token` followed by the post-acquire check in
`get_access_token`: a successful token response stores the token and
`now + expires_in`; a failed request leaves the state unchanged and
propagates; an empty `access_token` is stored but then rejected by
`if not self._access_token: raise`. The fetch outcome stands for the
outcome of the OAuth POST (`.ok (access_token, expires_in)` for HTTP 200,
`.error` for a non-200 status or a network failure). -/
def acquireToken (st : AuthState) (now : Int)
    (fetch : Except String (String × Int)) : Except String String × AuthState :=
  match fetch with
  | .error e => (.error e, st)
  | .ok (t, expiresIn) =>
      if t = "" then (.error "Failed to acquire access token", ⟨some t, now + expiresIn⟩)
      else (.ok t, ⟨some t, now + expiresIn⟩)

/-- Source: `ServicePrincipalAuth.get_access_token`, one serialized call (the body
runs under `self._token_lock`).  Returns the cached token when it is truthy
and `now < expires_at - 300` (5-minute buffer), otherwise acquires a new
token. -/
def getAccessToken (st : AuthState) (now : Int)
    (fetch : Except String (String × Int)) : Except String String × AuthState :=
  match st.accessToken with
  | some t =>
      if t ≠ "" ∧ now < st.tokenExpiresAt - 300 then (.ok t, st)
      else acquireToken st now fetch
  | none => acquireToken st now fetch

/-- Whether a call to `get_access_token` at time `now` takes the refresh
path (and hence issues exactly one token HTTP request). -/
def refreshNeeded (st : AuthState) (now : Int) : Bool :=
  match st.accessToken with
  | some t => !(decide (t ≠ "" ∧ now < st.tokenExpiresAt - 300))
  | none => true

/-- A sequence of `get_access_token` calls, serialized by `_token_lock`
(asyncio makes the locked section atomic, so concurrent callers are
exactly a serialized trace; a caller arriving during an in-flight refresh
is a later trace entry).  `calls` are the arrival times, `fetches k` the
outcome the identity provider would give to the k-th token HTTP request.
Returns the per-call results, the final state, and the total number of
token HTTP requests issued. -/
def runAuthTrace (st : AuthState) (calls : List Int)
    (fetches : Nat → Except String (String × Int)) (k : Nat) :
    List (Except String String) × AuthState × Nat :=
  match calls with
  | [] => ([], st, 0)
  | t :: rest =>
      let used := refreshNeeded st t
      let step := getAccessToken st t (fetches k)
      let tail := runAuthTrace step.2 rest fetches (k + (if used then 1 else 0))
      (step.1 :: tail.1, tail.2.1, (if used then 1 else 0) + tail.2.2)

/- ------------------------------------------------------------------ -/
/- Base HTTP client: mcp_servers/databricks/api/base.py                -/
/- ------------------------------------------------------------------ -/

/-- An HTTP response as seen through aiohttp: status, body text, and the
parsed JSON body when the text parses as JSON (`none` otherwise). -/
structure HttpResponse where
  status : Nat
  text : String
  json : Option JVal

/-- The single exception class of the client layer
(`DatabricksAPIError(message, status_code=None, response_data=None)`). -/
structure DatabricksAPIError where
  message : String
  statusCode : Option Nat
  responseData : Option JVal

/-- Outcome of the underlying `session.request`: a response, or an
`aiohttp.ClientError` (connection failure / timeout) with its message. -/
inductive TransportResult where
  | resp (r : HttpResponse)
  | clientError (msg : String)

/-- Source: `error_data` computed in the `status >= 400` branch of `_make_request`:
`await response.json() if response_text else {}`, with the JSON-decode
failure fallback `{"message": response_text}`. -/
def errorDataOf (r : HttpResponse) : JVal :=
  if r.text = "" then .obj []
  else
    match r.json with
    | some j => j
    | none => .obj [("message", .str r.text)]

/-- Source: `error_data.get("message", f"HTTP {response.status}")`.  A non-dict
`error_data` would raise `AttributeError` in Python; the modelled message
stands for that interpreter text (not exercised by any claim). -/
def errorMessageOf (d : JVal) (status : Nat) : String :=
  match d with
  | .obj fields =>
      match fields.lookup "message" with
      | some (.str m) => m
      | some v => jvalToStr v
      | none => "HTTP " ++ toString status
  | _ => "error_data has no attribute get"

/-- Source: `BaseDatabricksClient._make_request`.  Note the control flow of the
source: the `raise DatabricksAPIError(message, status_code, response_data)`
in the `status >= 400` branch escapes the `async with` blocks and is then
caught by the trailing `except Exception as e`, which re-raises
`DatabricksAPIError(f"Unexpected error: {str(e)}")` - so the error that
actually reaches the caller has `status_code=None` and
`response_data=None`, with only the message text preserved.
`aiohttp.ClientError` is caught first and re-raised as
`DatabricksAPIError(f"HTTP client error: {str(e)}")`, also with no status
code: there is no second exception type. -/
def makeRequest (t : TransportResult) : Except DatabricksAPIError JVal :=
  match t with
  | .clientError msg => .error ⟨"HTTP client error: " ++ msg, none, none⟩
  | .resp r =>
      if 400 ≤ r.status then
        .error ⟨"Unexpected error: " ++ errorMessageOf (errorDataOf r) r.status,
                none, none⟩
      else if r.text = "" then .ok (.obj [])
      else
        match r.json with
        | some j => .ok j
        | none => .ok (.obj [("response", .str r.text)])

/- ------------------------------------------------------------------ -/
/- Clusters client: mcp_servers/databricks/api/clusters.py             -/
/- ------------------------------------------------------------------ -/

/-- Outcome of one already-built HTTP call, as delivered to a resource
client by `_make_request` (exception rendered through `str`). -/
def Responder := HttpReq → Except String JVal

/-- Source: `ClustersClient.get_cluster`: no local validation, directly
`GET /api/2.0/clusters/get` with `params={"cluster_id": cluster_id}`. -/
def clustersGetCluster (http : Responder) (clusterId : String) :
    Except String JVal × List HttpReq :=
  let req : HttpReq := ⟨"GET", "/api/2.0/clusters/get", [("cluster_id", .str clusterId)], 0⟩
  (http req, [req])

/-- Source: `ClustersClient.start_cluster`: no local validation, directly
`POST /api/2.0/clusters/start` with `data={"cluster_id": cluster_id}`. -/
def clustersStartCluster (http : Responder) (clusterId : String) :
    Except String JVal × List HttpReq :=
  let req : HttpReq := ⟨"POST", "/api/2.0/clusters/start", [("cluster_id", .str clusterId)], 0⟩
  (http req, [req])

/-- Source: `ClustersClient.terminate_cluster`: no local validation, directly
`POST /api/2.0/clusters/delete` with `data={"cluster_id": cluster_id}`. -/
def clustersTerminateCluster (http : Responder) (clusterId : String) :
    Except String JVal × List HttpReq :=
  let req : HttpReq := ⟨"POST", "/api/2.0/clusters/delete", [("cluster_id", .str clusterId)], 0⟩
  (http req, [req])

/- ------------------------------------------------------------------ -/
/- SQL client: mcp_servers/databricks/api/sql.py                       -/
/- ------------------------------------------------------------------ -/

/-- Path of the statement-status resource,
`f"/api/2.0/sql/statements/{statement_id}"`. -/
def sqlStatementPath (statementId : String) : String :=
  "/api/2.0/sql/statements/" ++ statementId

/-- Source: `response.get("status", {}).get("state")`. -/
def stmtState (r : JVal) : Option JVal :=
  ((r.dictGet "status").getD (.obj [])).dictGet "state"

/-- Boolean test `response.get("status", {}).get("state") == s`. -/
def stmtStateIs (r : JVal) (s : String) : Bool :=
  match stmtState r with
  | some (.str x) => x == s
  | _ => false

/-- Source: `state in ["SUCCEEDED", "FAILED", "CANCELED"]`. -/
def isTerminalStmtState (r : JVal) : Bool :=
  match stmtState r with
  | some (.str s) => s == "SUCCEEDED" || s == "FAILED" || s == "CANCELED"
  | _ => false

/-- The status GET requests a statement-polling run issues: `count`
requests starting at poll index `n`, the i-th at idealised time `2 * i`
(the loop sleeps 2 seconds between successive polls). -/
def stmtReqs (statementId : String) (n count : Nat) : List HttpReq :=
  match count with
  | 0 => []
  | c + 1 => ⟨"GET", sqlStatementPath statementId, [], 2 * n⟩ :: stmtReqs statementId (n + 1) c

/-- Source: `SQLClient._wait_for_statement_completion`, unrolled from poll index
`n`.  `poll i` is the outcome of the i-th status GET.  The loop body:
break once the elapsed time (`2 * n` under the idealised clock) exceeds
`max_wait_time`; otherwise GET the status, return it if terminal, else
sleep 2 seconds and repeat.  After the break, one final status GET is
issued and returned as-is. -/
def waitForStatementFrom (statementId : String) (poll : Nat → Except String JVal)
    (maxWaitTime : Nat) (n : Nat) : Except String JVal × List HttpReq :=
  if h : maxWaitTime < 2 * n then
    (poll n, [⟨"GET", sqlStatementPath statementId, [], 2 * n⟩])
  else
    match poll n with
    | .error e => (.error e, [⟨"GET", sqlStatementPath statementId, [], 2 * n⟩])
    | .ok r =>
        if isTerminalStmtState r then
          (.ok r, [⟨"GET", sqlStatementPath statementId, [], 2 * n⟩])
        else
          let rest := waitForStatementFrom statementId poll maxWaitTime (n + 1)
          (rest.1, ⟨"GET", sqlStatementPath statementId, [], 2 * n⟩ :: rest.2)
  termination_by maxWaitTime / 2 + 1 - n
  decreasing_by
    simp only [not_lt] at h
    omega

/-- Source: `SQLClient._wait_for_statement_completion(statement_id, max_wait_time)`
(the source defaults `max_wait_time` to 300). -/
def waitForStatementCompletion (statementId : String)
    (poll : Nat → Except String JVal) (maxWaitTime : Nat) :
    Except String JVal × List HttpReq :=
  waitForStatementFrom statementId poll maxWaitTime 0

/-- Source: `SQLClient.execute_statement` from the submit response onward:
`submit` is the outcome of `POST /api/2.0/sql/statements`; when it carries
a truthy `statement_id` and `status.state == "RUNNING"` the wait loop runs
(with the default 300-second ceiling), otherwise the submit response is
returned directly.  The request list records the status GETs of the wait
loop. -/
def executeStatement (submit : Except String JVal)
    (poll : Nat → Except String JVal) : Except String JVal × List HttpReq :=
  match submit with
  | .error e => (.error e, [])
  | .ok response =>
      match response.dictGet "statement_id" with
      | some sid =>
          if jvalTruthy sid && stmtStateIs response "RUNNING" then
            waitForStatementFrom (jvalToStr sid) poll 300 0
          else (.ok response, [])
      | none => (.ok response, [])

/- ------------------------------------------------------------------ -/
/- Jobs client: mcp_servers/databricks/api/jobs.py                     -/
/- ------------------------------------------------------------------ -/

/-- Path used by `JobsClient.get_run`. -/
def jobsRunPath : String := "/api/2.1/jobs/runs/get"

/-- Source: `response.get("state", {}).get("life_cycle_state")`. -/
def runLifeCycleState (r : JVal) : Option JVal :=
  ((r.dictGet "state").getD (.obj [])).dictGet "life_cycle_state"

/-- Source: `state in ["TERMINATED", "SKIPPED", "INTERNAL_ERROR"]`. -/
def isTerminalRunState (r : JVal) : Bool :=
  match runLifeCycleState r with
  | some (.str s) => s == "TERMINATED" || s == "SKIPPED" || s == "INTERNAL_ERROR"
  | _ => false

/-- The status GET requests a run-polling loop issues: `count` requests
starting at poll index `n`, the i-th at idealised time `10 * i` (the loop
sleeps 10 seconds between successive polls). -/
def runReqs (runId : Int) (n count : Nat) : List HttpReq :=
  match count with
  | 0 => []
  | c + 1 => ⟨"GET", jobsRunPath, [("run_id", .int runId)], 10 * n⟩ :: runReqs runId (n + 1) c

/-- Source: `JobsClient.wait_for_run_completion`, unrolled from poll index `n`:
same shape as the SQL wait loop with a 10-second sleep, the
`TERMINATED / SKIPPED / INTERNAL_ERROR` terminal set, and a final
`get_run` after the deadline check fails. -/
def waitForRunFrom (runId : Int) (poll : Nat → Except String JVal)
    (maxWaitTime : Nat) (n : Nat) : Except String JVal × List HttpReq :=
  if h : maxWaitTime < 10 * n then
    (poll n, [⟨"GET", jobsRunPath, [("run_id", .int runId)], 10 * n⟩])
  else
    match poll n with
    | .error e => (.error e, [⟨"GET", jobsRunPath, [("run_id", .int runId)], 10 * n⟩])
    | .ok r =>
        if isTerminalRunState r then
          (.ok r, [⟨"GET", jobsRunPath, [("run_id", .int runId)], 10 * n⟩])
        else
          let rest := waitForRunFrom runId poll maxWaitTime (n + 1)
          (rest.1, ⟨"GET", jobsRunPath, [("run_id", .int runId)], 10 * n⟩ :: rest.2)
  termination_by maxWaitTime / 10 + 1 - n
  decreasing_by
    simp only [not_lt] at h
    omega

/-- Source: `JobsClient.wait_for_run_completion(run_id, max_wait_time)` (the
source defaults `max_wait_time` to 3600). -/
def waitForRunCompletion (runId : Int) (poll : Nat → Except String JVal)
    (maxWaitTime : Nat) : Except String JVal × List HttpReq :=
  waitForRunFrom runId poll maxWaitTime 0

/- ------------------------------------------------------------------ -/
/- Notebooks client: mcp_servers/databricks/api/notebooks.py           -/
/- ------------------------------------------------------------------ -/

/-- A workspace object as returned by `GET /api/2.0/workspace/list`. -/
structure WsEntry where
  path : String
  objectType : String

/-- The remote workspace, as a tree of notebooks and directories. -/
inductive WsTree where
  | notebook (path : String)
  | directory (path : String) (children : List WsTree)

/-- Path of a workspace node. -/
def WsTree.nodePath : WsTree → String
  | .notebook p => p
  | .directory p _ => p

/-- Source: `object_type` of a workspace node. -/
def WsTree.nodeType : WsTree → String
  | .notebook _ => "NOTEBOOK"
  | .directory _ _ => "DIRECTORY"

/-- The listing entry for a workspace node. -/
def wsEntryOf (t : WsTree) : WsEntry := ⟨t.nodePath, t.nodeType⟩

mutual

/-- The children of the directory named `q`, if it occurs in the tree. -/
def findDir : WsTree → String → Option (List WsTree)
  | .notebook _, _ => none
  | .directory p cs, q => if p = q then some cs else findDirInForest cs q

/-- Source: `findDir` over a list of sibling trees (first hit wins). -/
def findDirInForest : List WsTree → String → Option (List WsTree)
  | [], _ => none
  | t :: ts, q =>
      match findDir t q with
      | some cs => some cs
      | none => findDirInForest ts q

end

/-- Source: `NotebooksClient.list_workspace_objects(path)`: one (non-recursive)
`GET /api/2.0/workspace/list`, returning the immediate children of the
directory at `path` (the `"objects"` field of the response; empty when the
path does not name a directory). -/
def listWorkspaceObjects (root : WsTree) (path : String) : List WsEntry :=
  match findDir root path with
  | some cs => cs.map wsEntryOf
  | none => []

/-- The accumulation loop of `NotebooksClient.search_notebooks`: walk the
listed objects in order; a NOTEBOOK whose path contains the query
(case-insensitively) is appended, and the loop breaks as soon as the
accumulator reaches `max_results`. -/
def searchLoop (query : String) (maxResults : Nat) (acc : List WsEntry) :
    List WsEntry → List WsEntry
  | [] => acc
  | e :: es =>
      if e.objectType == "NOTEBOOK" && pyInLower query e.path then
        let acc' := acc ++ [e]
        if maxResults ≤ acc'.length then acc'
        else searchLoop query maxResults acc' es
      else searchLoop query maxResults acc es

/-- Source: `NotebooksClient.search_notebooks(query, max_results, path_prefix)`:
a single `list_workspace_objects` call on `path_prefix or "/"` followed by
the client-side filter loop. -/
def searchNotebooks (root : WsTree) (query : String) (maxResults : Nat)
    (pathPre : Option String) : List WsEntry :=
  searchLoop query maxResults [] (listWorkspaceObjects root (pathPre.getD "/"))

mutual

/-- All NOTEBOOK entries in a workspace subtree (the node itself included
when it is a notebook). -/
def notebooksInTree : WsTree → List WsEntry
  | .notebook p => [⟨p, "NOTEBOOK"⟩]
  | .directory _ cs => notebooksInForest cs

/-- Source: `notebooksInTree` over a list of sibling trees, in listing order. -/
def notebooksInForest : List WsTree → List WsEntry
  | [] => []
  | t :: ts => notebooksInTree t ++ notebooksInForest ts

end

/-- The spec's description of `search_notebooks` ("a client-side substring
filter over a recursive directory listing" of the subtree rooted at
`path_prefix`, capped at `max_results`), stated as a definition for
comparison with the source's `searchNotebooks`. -/
def searchNotebooksSpecRecursive (root : WsTree) (query : String)
    (maxResults : Nat) (pathPre : Option String) : List WsEntry :=
  match findDir root (pathPre.getD "/") with
  | some cs =>
      ((notebooksInForest cs).filter
        (fun e => pyInLower query e.path)).take maxResults
  | none => []

/- ------------------------------------------------------------------ -/
/- Sync bridge and tool dispatcher: data_scientist_agent/mcp_client.py -/
/- ------------------------------------------------------------------ -/

/-- The `{"status": "success", "data": result}` mapping built by every
successful `_call_mcp_tool` branch. -/
def successObj (d : JVal) : JVal :=
  .obj [("status", .str "success"), ("data", d)]

/-- The `{"status": "error", "error": msg}` mapping built by the error
paths of `_call_mcp_tool` and of every `_sync` wrapper. -/
def errObj (e : String) : JVal :=
  .obj [("status", .str "error"), ("error", .str e)]

/-- Source: `result.get("status")` of a tool result. -/
def statusOf (j : JVal) : Option JVal := j.dictGet "status"

/-- The underlying resource-client coroutine invoked by a `_call_mcp_tool`
branch, abstracted as a function of the tool name and the tool parameters;
`.error e` is an exception with `str(exc) = e` (for example a
`DatabricksAPIError`). -/
def ToolEnv := String → List (String × JVal) → Except String JVal

/-- Source: `params.get(key)` followed by the dispatcher's `if not value` check:
`some v` exactly when the key is present with a truthy value. -/
def lookupTruthy (params : List (String × JVal)) (key : String) : Option JVal :=
  match params.lookup key with
  | some v => if jvalTruthy v then some v else none
  | none => none

/-- A required-parameter failure branch of `_call_mcp_tool`: the branch
returns the error mapping without invoking any client (the `Bool` records
whether the underlying client coroutine was awaited, hence whether any
network request could be issued). -/
def missingParam (msg : String) : Except String JVal × Bool :=
  (.ok (errObj msg), false)

/-- A dispatch branch that reaches its resource client: the client outcome
is wrapped as `{"status": "success", "data": result}`, and a raised
exception propagates to the dispatcher's outer `except`. -/
def invokeClient (env : ToolEnv) (tool : String)
    (params : List (String × JVal)) : Except String JVal × Bool :=
  ((env tool params).map successObj, true)

/-- The recurring branch pattern of `_call_mcp_tool`:
`x = params.get(key) ...; if not x: return error; <client call>`. -/
def requireParam (env : ToolEnv) (tool : String)
    (params : List (String × JVal)) (key msg : String) :
    Except String JVal × Bool :=
  match lookupTruthy params key with
  | none => missingParam msg
  | some _ => invokeClient env tool params

/-- The `import_notebook` branch pattern: `if not path or not content:
return error; <client call>`. -/
def requireTwoParams (env : ToolEnv) (tool : String)
    (params : List (String × JVal)) (key1 key2 msg : String) :
    Except String JVal × Bool :=
  match lookupTruthy params key1, lookupTruthy params key2 with
  | some _, some _ => invokeClient env tool params
  | _, _ => missingParam msg

/-- The required-parameter discipline of one `_call_mcp_tool` branch. -/
inductive ToolCheck where
  | noCheck
  | oneKey (key msg : String)
  | twoKeys (key1 key2 msg : String)

/-- The branch table of `DatabricksMCPClient._call_mcp_tool`, one entry
per `elif tool_name == ...` branch of the source, recording which
required-parameter check the branch performs before its client call. -/
def toolTable : List (String × ToolCheck) :=
  [("list_clusters", .noCheck),
   ("get_cluster", .oneKey "cluster_id" "cluster_id is required"),
   ("start_cluster", .oneKey "cluster_id" "cluster_id is required"),
   ("terminate_cluster", .oneKey "cluster_id" "cluster_id is required"),
   ("execute_sql", .oneKey "statement" "statement is required"),
   ("list_warehouses", .noCheck),
   ("get_warehouse", .oneKey "warehouse_id" "warehouse_id is required"),
   ("start_warehouse", .oneKey "warehouse_id" "warehouse_id is required"),
   ("stop_warehouse", .oneKey "warehouse_id" "warehouse_id is required"),
   ("list_jobs", .noCheck),
   ("get_job", .oneKey "job_id" "job_id is required"),
   ("run_job", .oneKey "job_id" "job_id is required"),
   ("list_notebooks", .noCheck),
   ("get_notebook_info", .oneKey "path" "path is required"),
   ("export_notebook", .oneKey "path" "path is required"),
   ("create_notebook", .oneKey "path" "path is required"),
   ("import_notebook", .twoKeys "path" "content" "path and content are required"),
   ("delete_notebook", .oneKey "path" "path is required"),
   ("create_directory", .oneKey "path" "path is required"),
   ("search_notebooks", .oneKey "query" "query is required")]

/-- The body of `_call_mcp_tool`'s outer `try`: dispatch on the tool
name (the source's `elif` chain, rendered as a table lookup), run the
branch's required-parameter check, then the client call; an unknown tool
name reaches the final `else`. -/
def toolBody (env : ToolEnv) (tool : String)
    (params : List (String × JVal)) : Except String JVal × Bool :=
  match toolTable.lookup tool with
  | some .noCheck => invokeClient env tool params
  | some (.oneKey key msg) => requireParam env tool params key msg
  | some (.twoKeys key1 key2 msg) => requireTwoParams env tool params key1 key2 msg
  | none => missingParam ("Unknown tool: " ++ tool)

/-- Source: `DatabricksMCPClient._call_mcp_tool`: the branch table wrapped in the
outer `except Exception as e: return {"status": "error", "error": str(e)}`.
The `Bool` records whether the underlying client coroutine was awaited. -/
def callMcpTool (env : ToolEnv) (tool : String)
    (params : List (String × JVal)) : JVal × Bool :=
  match toolBody env tool params with
  | (.ok r, b) => (r, b)
  | (.error e, b) => (errObj e, b)

/-- Source: `asyncio.run(coro())`: drives the coroutine to completion on a fresh
loop in the current thread; its value or exception propagates. -/
def runCoroutine (outcome : Except String JVal) : Except String JVal := outcome

/-- The no-running-loop branch of a `_sync` wrapper (the `except
RuntimeError` path): plain `asyncio.run`. -/
def syncBranchPlain (outcome : Except String JVal) : Except String JVal :=
  runCoroutine outcome

/-- The running-loop branch of a `_sync` wrapper:
`executor.submit(asyncio.run, coro()); future.result()` - the worker
thread drives the coroutine on its own loop, and `future.result()`
returns its value or re-raises its exception in the calling thread. -/
def syncBranchWorker (outcome : Except String JVal) : Except String JVal :=
  match runCoroutine outcome with
  | .ok v => .ok v
  | .error e => .error e

/-- A `_sync` wrapper: branch on whether the calling thread already has a
running event loop, then convert any exception to the error mapping in
the outer `except Exception as e`. -/
def syncWrapper (loopRunning : Bool) (outcome : Except String JVal) : JVal :=
  match (if loopRunning then syncBranchWorker outcome else syncBranchPlain outcome) with
  | .ok v => v
  | .error e => errObj e

/-- Every request in the list is a status GET on the given path (so in
particular none is a `POST .../cancel`). -/
def allStatusGets (reqs : List HttpReq) (p : String) : Bool :=
  reqs.all (fun req => req.method == "GET" && req.path == p)

/- Concrete fixtures used by witness instantiations. -/

/-- A statement-status response still in state RUNNING. -/
def runningResp : JVal := .obj [("status", .obj [("state", .str "RUNNING")])]

/-- A statement-status response in terminal state SUCCEEDED. -/
def succeededResp : JVal := .obj [("status", .obj [("state", .str "SUCCEEDED")])]

/-- A submit response carrying a statement id and state RUNNING. -/
def submitRespW : JVal :=
  .obj [("statement_id", .str "s1"), ("status", .obj [("state", .str "RUNNING")])]

/-- A job-run status response still in a non-terminal life-cycle state. -/
def runningRun : JVal := .obj [("state", .obj [("life_cycle_state", .str "RUNNING")])]

/-- A job-run status response in terminal life-cycle state TERMINATED. -/
def terminatedRun : JVal := .obj [("state", .obj [("life_cycle_state", .str "TERMINATED")])]

/- ------------------------------------------------------------------ -/
/- Theorems                                                            -/
/- ------------------------------------------------------------------ -/

theorem getAccessToken_cached (tok : String) (E now : Int)
    (fetch : Except String (String × Int)) (h1 : tok ≠ "") (h2 : now < E - 300) :
    getAccessToken ⟨some tok, E⟩ now fetch = (.ok tok, ⟨some tok, E⟩) := by
  simp [getAccessToken, h1, h2]

theorem refreshNeeded_cached (tok : String) (E now : Int)
    (h1 : tok ≠ "") (h2 : now < E - 300) :
    refreshNeeded ⟨some tok, E⟩ now = false := by
  simp [refreshNeeded, h1, h2]

theorem runAuthTrace_valid (tok : String) (E : Int) (htok : tok ≠ "")
    (calls : List Int) (fetches : Nat → Except String (String × Int)) (k : Nat)
    (h : ∀ t ∈ calls, t < E - 300) :
    runAuthTrace ⟨some tok, E⟩ calls fetches k =
      (List.replicate calls.length (.ok tok), ⟨some tok, E⟩, 0) := by
  induction calls generalizing k with
  | nil => simp [runAuthTrace]
  | cons t rest ih =>
      have ht : t < E - 300 := h t (by simp)
      have hrest : ∀ x ∈ rest, x < E - 300 := fun x hx => h x (by simp [hx])
      simp [runAuthTrace, refreshNeeded_cached tok E t htok ht,
            getAccessToken_cached tok E t (fetches k) htok ht, ih _ hrest,
            List.replicate_succ]

/-- C3: within one token's validity window - the first call acquires a
token, and every later call arrives while the cached token still has more
than the 300-second safety margin remaining - the serialized trace of
`get_access_token` calls (the `asyncio.Lock` makes concurrent callers a
serialized trace, so a caller arriving during an in-flight refresh is a
later trace entry) issues exactly one token HTTP request in total, and
every call returns the same newly fetched token. -/
theorem auth_single_refresh_per_window (tok : String) (expiresIn t0 : Int)
    (calls : List Int) (fetches : Nat → Except String (String × Int))
    (htok : tok ≠ "") (hf : fetches 0 = .ok (tok, expiresIn))
    (h : ∀ t ∈ calls, t < t0 + expiresIn - 300) :
    runAuthTrace initialAuthState (t0 :: calls) fetches 0 =
      (List.replicate (calls.length + 1) (.ok tok), ⟨some tok, t0 + expiresIn⟩, 1) := by
  have hstep : getAccessToken initialAuthState t0 (fetches 0) =
      (.ok tok, ⟨some tok, t0 + expiresIn⟩) := by
    simp [getAccessToken, initialAuthState, acquireToken, hf, htok]
  have hneed : refreshNeeded initialAuthState t0 = true := by
    simp [refreshNeeded, initialAuthState]
  simp [runAuthTrace, hneed, hstep,
        runAuthTrace_valid tok (t0 + expiresIn) htok calls fetches 1 h,
        List.replicate_succ]

theorem auth_single_refresh_per_window_witness :
    runAuthTrace initialAuthState [0, 10, 3000] (fun _ => .ok ("tok", 3600)) 0 =
      (List.replicate (2 + 1) (.ok "tok"), ⟨some "tok", 0 + 3600⟩, 1) :=
  auth_single_refresh_per_window "tok" 3600 0 [10, 3000] (fun _ => .ok ("tok", 3600))
    (by decide) rfl (by decide)

/-- C2 counterexample: starting from the initial state (no cached token),
a call at time 0 whose token response reports `expires_in = 100` returns
that token even though its remaining validity (100 seconds) is below the
300-second safety margin - `get_access_token` does not recheck the margin
after a refresh. -/
theorem token_margin_counterexample :
    getAccessToken initialAuthState 0 (.ok ("tok", 100)) =
      (.ok "tok", ⟨some "tok", 100⟩) ∧ (100 : Int) - 0 < 300 := by
  exact ⟨rfl, by decide⟩

/-- C2 (amended): a token returned from the cache without a refresh has
strictly more than the 300-second safety margin of remaining validity;
in every other case (no cached token, cached token falsy, or remaining
lifetime at most the margin) a refresh is performed first and the freshly
fetched token is returned with expiry `now + expires_in`, regardless of
whether `expires_in` itself exceeds the margin. -/
theorem token_margin_amended (st : AuthState) (now : Int)
    (fetch : Except String (String × Int)) (t : String) (st' : AuthState)
    (h : getAccessToken st now fetch = (.ok t, st')) :
    (st.accessToken = some t ∧ st' = st ∧ 300 < st.tokenExpiresAt - now) ∨
    (∃ expiresIn, fetch = .ok (t, expiresIn) ∧
      st' = ⟨some t, now + expiresIn⟩ ∧ t ≠ "") := by
  have hacq : acquireToken st now fetch = (.ok t, st') →
      ∃ expiresIn, fetch = .ok (t, expiresIn) ∧
        st' = ⟨some t, now + expiresIn⟩ ∧ t ≠ "" := by
    intro hq
    unfold acquireToken at hq
    cases hf : fetch with
    | error e =>
        rw [hf] at hq
        exact absurd (congrArg Prod.fst hq) (by simp)
    | ok p =>
        obtain ⟨t1, e1⟩ := p
        rw [hf] at hq
        dsimp only at hq
        by_cases h0 : t1 = ""
        · rw [if_pos h0] at hq
          exact absurd (congrArg Prod.fst hq) (by simp)
        · rw [if_neg h0] at hq
          have h1 : t1 = t := by
            have := congrArg Prod.fst hq
            simpa using this
          have h2 : st' = ⟨some t1, now + e1⟩ := by
            have := congrArg Prod.snd hq
            simpa using this.symm
          subst h1
          exact ⟨e1, rfl, h2, h0⟩
  unfold getAccessToken at h
  cases hst : st.accessToken with
  | some t0 =>
      rw [hst] at h
      dsimp only at h
      by_cases hc : t0 ≠ "" ∧ now < st.tokenExpiresAt - 300
      · rw [if_pos hc] at h
        have h1 : t0 = t := by
          have := congrArg Prod.fst h
          simpa using this
        have h2 : st' = st := by
          have := congrArg Prod.snd h
          simpa using this.symm
        obtain ⟨-, hc2⟩ := hc
        subst h1
        exact .inl ⟨rfl, h2, by omega⟩
      · rw [if_neg hc] at h
        exact .inr (hacq h)
  | none =>
      rw [hst] at h
      exact .inr (hacq h)

theorem token_margin_amended_witness :
    ((⟨some "a", 1000⟩ : AuthState).accessToken = some "a" ∧
      (⟨some "a", 1000⟩ : AuthState) = ⟨some "a", 1000⟩ ∧
      (300 : Int) < (⟨some "a", (1000 : Int)⟩ : AuthState).tokenExpiresAt - 0) ∨
    (∃ expiresIn, (Except.error "boom" : Except String (String × Int)) = .ok ("a", expiresIn) ∧
      (⟨some "a", 1000⟩ : AuthState) = ⟨some "a", 0 + expiresIn⟩ ∧ ("a" : String) ≠ "") :=
  token_margin_amended ⟨some "a", 1000⟩ 0 (.error "boom") "a" ⟨some "a", 1000⟩ rfl

theorem missingParam_ok (msg : String) (r : JVal)
    (h : (missingParam msg).1 = .ok r) : statusOf r = some (.str "error") := by
  simp only [missingParam, Except.ok.injEq] at h
  rw [← h]
  rfl

theorem invokeClient_ok (env : ToolEnv) (tool : String)
    (params : List (String × JVal)) (r : JVal)
    (h : (invokeClient env tool params).1 = .ok r) :
    statusOf r = some (.str "success") := by
  unfold invokeClient at h
  cases he : env tool params with
  | ok d =>
      rw [he] at h
      simp only [Except.map, Except.ok.injEq] at h
      rw [← h]
      rfl
  | error e =>
      rw [he] at h
      simp [Except.map] at h

theorem requireParam_ok (env : ToolEnv) (tool : String)
    (params : List (String × JVal)) (key msg : String) (r : JVal)
    (h : (requireParam env tool params key msg).1 = .ok r) :
    statusOf r = some (.str "success") ∨ statusOf r = some (.str "error") := by
  unfold requireParam at h
  cases hx : lookupTruthy params key with
  | none =>
      rw [hx] at h
      exact .inr (missingParam_ok _ _ h)
  | some v =>
      rw [hx] at h
      exact .inl (invokeClient_ok _ _ _ _ h)

theorem requireTwoParams_ok (env : ToolEnv) (tool : String)
    (params : List (String × JVal)) (key1 key2 msg : String) (r : JVal)
    (h : (requireTwoParams env tool params key1 key2 msg).1 = .ok r) :
    statusOf r = some (.str "success") ∨ statusOf r = some (.str "error") := by
  unfold requireTwoParams at h
  cases hx : lookupTruthy params key1 with
  | none =>
      rw [hx] at h
      exact .inr (missingParam_ok _ _ h)
  | some v =>
      cases hy : lookupTruthy params key2 with
      | none =>
          rw [hx, hy] at h
          exact .inr (missingParam_ok _ _ h)
      | some w =>
          rw [hx, hy] at h
          exact .inl (invokeClient_ok _ _ _ _ h)

theorem toolBody_cases (env : ToolEnv) (tool : String)
    (params : List (String × JVal)) :
    toolBody env tool params = invokeClient env tool params ∨
    (∃ key msg, toolBody env tool params = requireParam env tool params key msg) ∨
    (∃ key1 key2 msg,
      toolBody env tool params = requireTwoParams env tool params key1 key2 msg) ∨
    ∃ m, toolBody env tool params = missingParam m := by
  unfold toolBody
  cases hx : toolTable.lookup tool with
  | none => exact .inr (.inr (.inr ⟨_, rfl⟩))
  | some check =>
      cases check with
      | noCheck => exact .inl rfl
      | oneKey key msg => exact .inr (.inl ⟨key, msg, rfl⟩)
      | twoKeys key1 key2 msg => exact .inr (.inr (.inl ⟨key1, key2, msg, rfl⟩))

theorem toolBody_ok_status (env : ToolEnv) (tool : String)
    (params : List (String × JVal)) (r : JVal)
    (h : (toolBody env tool params).1 = .ok r) :
    statusOf r = some (.str "success") ∨ statusOf r = some (.str "error") := by
  rcases toolBody_cases env tool params with hc | ⟨key, msg, hc⟩ | ⟨k1, k2, msg, hc⟩ | ⟨m, hc⟩
  · rw [hc] at h
    exact .inl (invokeClient_ok _ _ _ _ h)
  · rw [hc] at h
    exact requireParam_ok _ _ _ _ _ _ h
  · rw [hc] at h
    exact requireTwoParams_ok _ _ _ _ _ _ _ h
  · rw [hc] at h
    exact .inr (missingParam_ok _ _ h)

theorem callMcpTool_status (env : ToolEnv) (tool : String)
    (params : List (String × JVal)) :
    statusOf (callMcpTool env tool params).1 = some (.str "success") ∨
      statusOf (callMcpTool env tool params).1 = some (.str "error") := by
  rcases htb : toolBody env tool params with ⟨o, b⟩
  cases o with
  | ok r =>
      have h1 : (toolBody env tool params).1 = .ok r := by rw [htb]
      have h2 : callMcpTool env tool params = (r, b) := by
        unfold callMcpTool; rw [htb]
      rw [h2]
      exact toolBody_ok_status env tool params r h1
  | error e =>
      have h2 : callMcpTool env tool params = (errObj e, b) := by
        unfold callMcpTool; rw [htb]
      rw [h2]
      exact .inr rfl

theorem syncWrapper_ok (loopRunning : Bool) (v : JVal) :
    syncWrapper loopRunning (.ok v) = v := by
  cases loopRunning <;> rfl

/-- C1: for every tool name, every parameter mapping and every outcome of
the underlying client coroutine, the `_call_mcp_tool` dispatcher returns a
mapping whose `"status"` is `"success"` or `"error"`; the `_sync` wrappers
convert any exception raised by the coroutine they drive into
`{"status": "error", "error": str(exc)}` (never letting it propagate), and
a normally completing tool call passes through the wrapper with its status
discriminant intact. -/
theorem sync_bridge_status_discipline (env : ToolEnv) (tool : String)
    (params : List (String × JVal)) (e : String) (loopRunning : Bool) :
    (statusOf (callMcpTool env tool params).1 = some (.str "success") ∨
      statusOf (callMcpTool env tool params).1 = some (.str "error")) ∧
    syncWrapper loopRunning (.error e) = errObj e ∧
    (statusOf (syncWrapper loopRunning (.ok (callMcpTool env tool params).1)) =
        some (.str "success") ∨
      statusOf (syncWrapper loopRunning (.ok (callMcpTool env tool params).1)) =
        some (.str "error")) := by
  refine ⟨callMcpTool_status env tool params, ?_, ?_⟩
  · cases loopRunning <;> rfl
  · rw [syncWrapper_ok]
    exact callMcpTool_status env tool params

/-- C8: the two dispatch branches of a `_sync` wrapper - plain
`asyncio.run` when no event loop is running, and a worker thread joined
via `future.result()` when one is - are equivalent as functions of the
underlying coroutine's outcome. -/
theorem sync_branches_equivalent (outcome : Except String JVal) :
    syncWrapper true outcome = syncWrapper false outcome := by
  cases outcome <;> rfl

/-- C6 counterexample: `ClustersClient.get_cluster` (likewise
`start_cluster` / `terminate_cluster`) called with an empty cluster id
performs no validation: it issues exactly one HTTP request and returns
the transport's answer, raising no `ValueError`. -/
theorem cluster_validation_counterexample :
    (clustersGetCluster (fun _ => .ok (.obj [])) "").2.length = 1 ∧
    (clustersGetCluster (fun _ => .ok (.obj [])) "").1 = .ok (.obj []) ∧
    (clustersStartCluster (fun _ => .ok (.obj [])) "").2.length = 1 ∧
    (clustersTerminateCluster (fun _ => .ok (.obj [])) "").2.length = 1 :=
  ⟨rfl, rfl, rfl, rfl⟩

/-- C6 (amended): the missing-cluster-id check lives in the
`_call_mcp_tool` dispatcher, not in the clusters client: when `params`
carries no truthy `cluster_id`, the `get_cluster` / `start_cluster` /
`terminate_cluster` tool calls return `{"status": "error", "error":
"cluster_id is required"}` without awaiting the client coroutine (so zero
network requests), and without raising; the `ClustersClient` methods
themselves validate nothing and issue the HTTP request for any id. -/
theorem cluster_id_checked_in_dispatcher (env : ToolEnv)
    (params : List (String × JVal))
    (h : lookupTruthy params "cluster_id" = none) :
    callMcpTool env "get_cluster" params = (errObj "cluster_id is required", false) ∧
    callMcpTool env "start_cluster" params = (errObj "cluster_id is required", false) ∧
    callMcpTool env "terminate_cluster" params = (errObj "cluster_id is required", false) := by
  refine ⟨?_, ?_, ?_⟩ <;>
    simp [callMcpTool, toolBody, toolTable, List.lookup, requireParam, h, missingParam]

theorem cluster_id_checked_in_dispatcher_witness :
    callMcpTool (fun _ _ => .ok .null) "get_cluster" [] =
      (errObj "cluster_id is required", false) ∧
    callMcpTool (fun _ _ => .ok .null) "start_cluster" [] =
      (errObj "cluster_id is required", false) ∧
    callMcpTool (fun _ _ => .ok .null) "terminate_cluster" [] =
      (errObj "cluster_id is required", false) :=
  cluster_id_checked_in_dispatcher (fun _ _ => .ok .null) [] rfl

/-- C7 counterexample: a 403 response with body message "forbidden" does
not surface as an error carrying the status code and body - the inner
`raise DatabricksAPIError(message, status_code, response_data)` is
re-caught by the generic `except Exception` and re-wrapped with both
fields reset to `None`; and a connection failure raises the very same
`DatabricksAPIError` type (message-prefixed `"HTTP client error:"`),
not a distinct `TransportError`. -/
theorem api_error_type_counterexample :
    makeRequest (.resp ⟨403, "x", some (.obj [("message", .str "forbidden")])⟩) =
      .error ⟨"Unexpected error: forbidden", none, none⟩ ∧
    makeRequest (.resp ⟨403, "x", some (.obj [("message", .str "forbidden")])⟩) ≠
      .error ⟨"forbidden", some 403, some (.obj [("message", .str "forbidden")])⟩ ∧
    makeRequest (.clientError "Cannot connect to host") =
      .error ⟨"HTTP client error: Cannot connect to host", none, none⟩ := by
  refine ⟨rfl, ?_, rfl⟩
  intro hcontra
  rw [show makeRequest (.resp ⟨403, "x", some (.obj [("message", .str "forbidden")])⟩) =
      .error ⟨"Unexpected error: forbidden", none, none⟩ from rfl] at hcontra
  injection hcontra with hfield
  have := congrArg DatabricksAPIError.statusCode hfield
  simp at this

/-- C7 (amended): every failure of `_make_request` is the single
`DatabricksAPIError` type.  A response with HTTP status at least 400
raises one whose message is `"Unexpected error: "` followed by the
body-derived message, with `status_code = None` and
`response_data = None` (the populated inner raise is re-wrapped by the
generic `except Exception`); a connection failure or timeout raises one
whose message is `"HTTP client error: "` followed by the transport
message, also with no status code - there is no distinct transport error
type. -/
theorem api_error_amended (r : HttpResponse) (h : 400 ≤ r.status) (m : String) :
    makeRequest (.resp r) =
      .error ⟨"Unexpected error: " ++ errorMessageOf (errorDataOf r) r.status,
              none, none⟩ ∧
    makeRequest (.clientError m) =
      .error ⟨"HTTP client error: " ++ m, none, none⟩ := by
  constructor
  · simp [makeRequest, h]
  · rfl

theorem api_error_amended_witness :
    makeRequest (.resp ⟨500, "", none⟩) =
      .error ⟨"Unexpected error: " ++
          errorMessageOf (errorDataOf ⟨500, "", none⟩) 500, none, none⟩ ∧
    makeRequest (.clientError "timeout") =
      .error ⟨"HTTP client error: " ++ "timeout", none, none⟩ :=
  api_error_amended ⟨500, "", none⟩ (by decide) "timeout"

theorem stmtReqs_length (sid : String) :
    ∀ count n, (stmtReqs sid n count).length = count := by
  intro count
  induction count with
  | zero => intro n; rfl
  | succ c ih => intro n; simp [stmtReqs, ih]

theorem stmtReqs_times (sid : String) :
    ∀ count n, (stmtReqs sid n count).map HttpReq.time =
      (List.range' n count).map (fun i => 2 * i) := by
  intro count
  induction count with
  | zero => intro n; rfl
  | succ c ih => intro n; simp [stmtReqs, List.range'_succ, ih]

theorem stmtReqs_all_get (sid : String) :
    ∀ count n, allStatusGets (stmtReqs sid n count) (sqlStatementPath sid) = true := by
  intro count
  induction count with
  | zero => intro n; rfl
  | succ c ih =>
      intro n
      have := ih (n + 1)
      simp [stmtReqs, allStatusGets] at this ⊢
      exact this

theorem runReqs_length (runId : Int) :
    ∀ count n, (runReqs runId n count).length = count := by
  intro count
  induction count with
  | zero => intro n; rfl
  | succ c ih => intro n; simp [runReqs, ih]

theorem runReqs_all_get (runId : Int) :
    ∀ count n, allStatusGets (runReqs runId n count) jobsRunPath = true := by
  intro count
  induction count with
  | zero => intro n; rfl
  | succ c ih =>
      intro n
      have := ih (n + 1)
      simp [runReqs, allStatusGets] at this ⊢
      exact this

theorem waitStmt_terminal (sid : String) (poll : Nat → Except String JVal)
    (maxWait k : Nat) (rk : JVal)
    (hterm : poll k = .ok rk) (ht : isTerminalStmtState rk = true)
    (hk : 2 * k ≤ maxWait) :
    ∀ d n, k - n = d → n ≤ k →
      (∀ i, n ≤ i → i < k → ∃ r, poll i = .ok r ∧ isTerminalStmtState r = false) →
      waitForStatementFrom sid poll maxWait n = (.ok rk, stmtReqs sid n (k - n + 1)) := by
  intro d
  induction d with
  | zero =>
      intro n hd hnk hok
      have hn : n = k := by omega
      subst hn
      rw [waitForStatementFrom]
      rw [dif_neg (by omega)]
      rw [hterm]
      dsimp only
      rw [if_pos ht]
      simp [stmtReqs, Nat.sub_self]
  | succ d ih =>
      intro n hd hnk hok
      have hnk' : n < k := by omega
      obtain ⟨r, hr, hnt⟩ := hok n le_rfl hnk'
      rw [waitForStatementFrom]
      rw [dif_neg (by omega)]
      rw [hr]
      dsimp only
      rw [if_neg (by simp [hnt])]
      rw [ih (n + 1) (by omega) (by omega) (fun i hi1 hi2 => hok i (by omega) hi2)]
      have harith : k - n + 1 = (k - (n + 1) + 1) + 1 := by omega
      rw [harith]
      simp [stmtReqs]

theorem waitStmt_timeout (sid : String) (poll : Nat → Except String JVal)
    (maxWait : Nat)
    (hok : ∀ i, i ≤ maxWait / 2 → ∃ r, poll i = .ok r ∧ isTerminalStmtState r = false) :
    ∀ d n, maxWait / 2 + 1 - n = d → n ≤ maxWait / 2 + 1 →
      waitForStatementFrom sid poll maxWait n =
        (poll (maxWait / 2 + 1), stmtReqs sid n (maxWait / 2 + 1 - n + 1)) := by
  intro d
  induction d with
  | zero =>
      intro n hd hn
      have hne : n = maxWait / 2 + 1 := by omega
      subst hne
      rw [waitForStatementFrom]
      rw [dif_pos (by omega)]
      simp [stmtReqs, Nat.sub_self]
  | succ d ih =>
      intro n hd hn
      have hn' : n ≤ maxWait / 2 := by omega
      obtain ⟨r, hr, hnt⟩ := hok n hn'
      rw [waitForStatementFrom]
      rw [dif_neg (by omega)]
      rw [hr]
      dsimp only
      rw [if_neg (by simp [hnt])]
      rw [ih (n + 1) (by omega) (by omega)]
      have harith : maxWait / 2 + 1 - n + 1 = (maxWait / 2 + 1 - (n + 1) + 1) + 1 := by omega
      rw [harith]
      simp [stmtReqs]

theorem waitRun_terminal (runId : Int) (poll : Nat → Except String JVal)
    (maxWait k : Nat) (rk : JVal)
    (hterm : poll k = .ok rk) (ht : isTerminalRunState rk = true)
    (hk : 10 * k ≤ maxWait) :
    ∀ d n, k - n = d → n ≤ k →
      (∀ i, n ≤ i → i < k → ∃ r, poll i = .ok r ∧ isTerminalRunState r = false) →
      waitForRunFrom runId poll maxWait n = (.ok rk, runReqs runId n (k - n + 1)) := by
  intro d
  induction d with
  | zero =>
      intro n hd hnk hok
      have hn : n = k := by omega
      subst hn
      rw [waitForRunFrom]
      rw [dif_neg (by omega)]
      rw [hterm]
      dsimp only
      rw [if_pos ht]
      simp [runReqs, Nat.sub_self]
  | succ d ih =>
      intro n hd hnk hok
      have hnk' : n < k := by omega
      obtain ⟨r, hr, hnt⟩ := hok n le_rfl hnk'
      rw [waitForRunFrom]
      rw [dif_neg (by omega)]
      rw [hr]
      dsimp only
      rw [if_neg (by simp [hnt])]
      rw [ih (n + 1) (by omega) (by omega) (fun i hi1 hi2 => hok i (by omega) hi2)]
      have harith : k - n + 1 = (k - (n + 1) + 1) + 1 := by omega
      rw [harith]
      simp [runReqs]

theorem waitRun_timeout (runId : Int) (poll : Nat → Except String JVal)
    (maxWait : Nat)
    (hok : ∀ i, i ≤ maxWait / 10 → ∃ r, poll i = .ok r ∧ isTerminalRunState r = false) :
    ∀ d n, maxWait / 10 + 1 - n = d → n ≤ maxWait / 10 + 1 →
      waitForRunFrom runId poll maxWait n =
        (poll (maxWait / 10 + 1), runReqs runId n (maxWait / 10 + 1 - n + 1)) := by
  intro d
  induction d with
  | zero =>
      intro n hd hn
      have hne : n = maxWait / 10 + 1 := by omega
      subst hne
      rw [waitForRunFrom]
      rw [dif_pos (by omega)]
      simp [runReqs, Nat.sub_self]
  | succ d ih =>
      intro n hd hn
      have hn' : n ≤ maxWait / 10 := by omega
      obtain ⟨r, hr, hnt⟩ := hok n hn'
      rw [waitForRunFrom]
      rw [dif_neg (by omega)]
      rw [hr]
      dsimp only
      rw [if_neg (by simp [hnt])]
      rw [ih (n + 1) (by omega) (by omega)]
      have harith : maxWait / 10 + 1 - n + 1 = (maxWait / 10 + 1 - (n + 1) + 1) + 1 := by omega
      rw [harith]
      simp [runReqs]

/-- C4: when the submit response carries a truthy `statement_id` and
`status.state == "RUNNING"`, and the k-th status poll is the first to
return a terminal state (within the 300-second ceiling),
`execute_statement` performs exactly the polls 0..k and returns the k-th
(terminal) response: at least one poll GET is issued before returning
(the request list has length k+1 >= 1), the requests are spaced 2 seconds
apart (the i-th at idealised time 2*i), and polling stops immediately at
the first terminal response, which is returned. -/
theorem executeStatement_polls_until_terminal (response : JVal)
    (poll : Nat → Except String JVal) (k : Nat) (rk : JVal) (sid : JVal)
    (hsid : response.dictGet "statement_id" = some sid)
    (htr : jvalTruthy sid = true)
    (hrun : stmtStateIs response "RUNNING" = true)
    (hok : ∀ i, i < k → ∃ r, poll i = .ok r ∧ isTerminalStmtState r = false)
    (hterm : poll k = .ok rk) (ht : isTerminalStmtState rk = true)
    (hk : 2 * k ≤ 300) :
    executeStatement (.ok response) poll =
      (.ok rk, stmtReqs (jvalToStr sid) 0 (k + 1)) ∧
    1 ≤ (stmtReqs (jvalToStr sid) 0 (k + 1)).length ∧
    (stmtReqs (jvalToStr sid) 0 (k + 1)).map HttpReq.time =
      (List.range (k + 1)).map (fun i => 2 * i) := by
  refine ⟨?_, ?_, ?_⟩
  · unfold executeStatement
    dsimp only
    rw [hsid]
    dsimp only
    rw [if_pos (by simp [htr, hrun])]
    exact waitStmt_terminal (jvalToStr sid) poll 300 k rk hterm ht hk k 0 rfl
      (Nat.zero_le k) (fun i _ hik => hok i hik)
  · rw [stmtReqs_length]
    omega
  · rw [stmtReqs_times, List.range_eq_range']

theorem executeStatement_polls_until_terminal_witness :
    executeStatement (.ok submitRespW)
        (fun n => if n = 0 then .ok runningResp else .ok succeededResp) =
      (.ok succeededResp, stmtReqs (jvalToStr (.str "s1")) 0 (1 + 1)) ∧
    1 ≤ (stmtReqs (jvalToStr (.str "s1")) 0 (1 + 1)).length ∧
    (stmtReqs (jvalToStr (.str "s1")) 0 (1 + 1)).map HttpReq.time =
      (List.range (1 + 1)).map (fun i => 2 * i) :=
  executeStatement_polls_until_terminal submitRespW
    (fun n => if n = 0 then .ok runningResp else .ok succeededResp)
    1 succeededResp (.str "s1") rfl rfl rfl
    (fun i hi => by
      have h0 : i = 0 := by omega
      subst h0
      exact ⟨runningResp, rfl, rfl⟩)
    rfl rfl (by omega)

/-- C5: when no poll (all of which succeed) reaches a terminal state
inside the deadline, both polling helpers return the last fetched status
object wrapped in a normal return (no exception), and every request they
issued is a status GET on the status resource - in particular neither
issues a cancel request for the remote statement or run.  For
`_wait_for_statement_completion` with ceiling `maxS` the in-loop polls
are the indices up to `maxS / 2` and the returned object is the final
fetch at index `maxS / 2 + 1`; for `wait_for_run_completion` with
ceiling `maxJ` the analogous index is `maxJ / 10 + 1`. -/
theorem pollers_return_last_status_on_timeout
    (sid : String) (pollS : Nat → Except String JVal) (maxS : Nat) (lastS : JVal)
    (runId : Int) (pollJ : Nat → Except String JVal) (maxJ : Nat) (lastJ : JVal)
    (hS : ∀ i, i ≤ maxS / 2 → ∃ r, pollS i = .ok r ∧ isTerminalStmtState r = false)
    (hlastS : pollS (maxS / 2 + 1) = .ok lastS)
    (hJ : ∀ i, i ≤ maxJ / 10 → ∃ r, pollJ i = .ok r ∧ isTerminalRunState r = false)
    (hlastJ : pollJ (maxJ / 10 + 1) = .ok lastJ) :
    waitForStatementCompletion sid pollS maxS =
      (.ok lastS, stmtReqs sid 0 (maxS / 2 + 1 + 1)) ∧
    allStatusGets (stmtReqs sid 0 (maxS / 2 + 1 + 1)) (sqlStatementPath sid) = true ∧
    waitForRunCompletion runId pollJ maxJ =
      (.ok lastJ, runReqs runId 0 (maxJ / 10 + 1 + 1)) ∧
    allStatusGets (runReqs runId 0 (maxJ / 10 + 1 + 1)) jobsRunPath = true := by
  refine ⟨?_, stmtReqs_all_get sid _ 0, ?_, runReqs_all_get runId _ 0⟩
  · unfold waitForStatementCompletion
    have h := waitStmt_timeout sid pollS maxS hS (maxS / 2 + 1) 0 rfl (by omega)
    rw [hlastS] at h
    exact h
  · unfold waitForRunCompletion
    have h := waitRun_timeout runId pollJ maxJ hJ (maxJ / 10 + 1) 0 rfl (by omega)
    rw [hlastJ] at h
    exact h

theorem pollers_return_last_status_on_timeout_witness :
    waitForStatementCompletion "s1" (fun _ => .ok runningResp) 0 =
      (.ok runningResp, stmtReqs "s1" 0 (0 / 2 + 1 + 1)) ∧
    allStatusGets (stmtReqs "s1" 0 (0 / 2 + 1 + 1)) (sqlStatementPath "s1") = true ∧
    waitForRunCompletion 7 (fun _ => .ok runningRun) 0 =
      (.ok runningRun, runReqs 7 0 (0 / 10 + 1 + 1)) ∧
    allStatusGets (runReqs 7 0 (0 / 10 + 1 + 1)) jobsRunPath = true :=
  pollers_return_last_status_on_timeout "s1" (fun _ => .ok runningResp) 0 runningResp
    7 (fun _ => .ok runningRun) 0 runningRun
    (fun _ _ => ⟨runningResp, rfl, rfl⟩) rfl
    (fun _ _ => ⟨runningRun, rfl, rfl⟩) rfl

/-- C10 (implicit): on deadline expiry neither polling helper returns the
status observed inside the loop - after the failed deadline check it
issues one additional status GET and returns that fresh response (which
can therefore be a terminal state reached after the deadline).  The
in-loop polls are the indices up to `maxS / 2` (resp. `maxJ / 10`), so
the total number of status requests is one more than the number of
in-loop polls. -/
theorem timeout_issues_fresh_fetch
    (sid : String) (pollS : Nat → Except String JVal) (maxS : Nat)
    (runId : Int) (pollJ : Nat → Except String JVal) (maxJ : Nat)
    (hS : ∀ i, i ≤ maxS / 2 → ∃ r, pollS i = .ok r ∧ isTerminalStmtState r = false)
    (hJ : ∀ i, i ≤ maxJ / 10 → ∃ r, pollJ i = .ok r ∧ isTerminalRunState r = false) :
    waitForStatementCompletion sid pollS maxS =
      (pollS (maxS / 2 + 1), stmtReqs sid 0 (maxS / 2 + 1 + 1)) ∧
    (stmtReqs sid 0 (maxS / 2 + 1 + 1)).length = (maxS / 2 + 1) + 1 ∧
    waitForRunCompletion runId pollJ maxJ =
      (pollJ (maxJ / 10 + 1), runReqs runId 0 (maxJ / 10 + 1 + 1)) ∧
    (runReqs runId 0 (maxJ / 10 + 1 + 1)).length = (maxJ / 10 + 1) + 1 := by
  refine ⟨?_, stmtReqs_length sid _ 0, ?_, runReqs_length runId _ 0⟩
  · exact waitStmt_timeout sid pollS maxS hS (maxS / 2 + 1) 0 rfl (by omega)
  · exact waitRun_timeout runId pollJ maxJ hJ (maxJ / 10 + 1) 0 rfl (by omega)

theorem timeout_issues_fresh_fetch_witness :
    waitForStatementCompletion "s1"
        (fun n => if n = 0 then .ok runningResp else .ok succeededResp) 0 =
      ((fun n => if n = 0 then .ok runningResp else .ok succeededResp) (0 / 2 + 1),
        stmtReqs "s1" 0 (0 / 2 + 1 + 1)) ∧
    (stmtReqs "s1" 0 (0 / 2 + 1 + 1)).length = (0 / 2 + 1) + 1 ∧
    waitForRunCompletion 7
        (fun n => if n = 0 then .ok runningRun else .ok terminatedRun) 0 =
      ((fun n => if n = 0 then .ok runningRun else .ok terminatedRun) (0 / 10 + 1),
        runReqs 7 0 (0 / 10 + 1 + 1)) ∧
    (runReqs 7 0 (0 / 10 + 1 + 1)).length = (0 / 10 + 1) + 1 :=
  timeout_issues_fresh_fetch "s1"
    (fun n => if n = 0 then .ok runningResp else .ok succeededResp) 0
    7 (fun n => if n = 0 then .ok runningRun else .ok terminatedRun) 0
    (fun i hi => by
      have h0 : i = 0 := by omega
      subst h0
      exact ⟨runningResp, rfl, rfl⟩)
    (fun i hi => by
      have h0 : i = 0 := by omega
      subst h0
      exact ⟨runningRun, rfl, rfl⟩)

theorem searchLoop_eq (query : String) (maxResults : Nat) :
    ∀ (es acc : List WsEntry), acc.length < maxResults →
      searchLoop query maxResults acc es =
        acc ++ (es.filter (fun e =>
          e.objectType == "NOTEBOOK" && pyInLower query e.path)).take
            (maxResults - acc.length) := by
  intro es
  induction es with
  | nil => intro acc h; simp [searchLoop]
  | cons e es ih =>
      intro acc h
      simp only [searchLoop]
      by_cases hc : (e.objectType == "NOTEBOOK" && pyInLower query e.path) = true
      · rw [if_pos hc]
        simp only [List.filter_cons, hc, if_pos]
        by_cases hm : maxResults ≤ (acc ++ [e]).length
        · rw [if_pos hm]
          simp only [List.length_append, List.length_cons, List.length_nil] at hm
          have hlen : maxResults - acc.length = 1 := by omega
          rw [hlen]
          simp
        · rw [if_neg hm]
          simp only [List.length_append, List.length_cons, List.length_nil] at hm
          rw [ih (acc ++ [e]) (by simp; omega)]
          have hgt : maxResults - acc.length = (maxResults - (acc.length + 1)) + 1 := by
            omega
          rw [hgt, List.take_succ_cons]
          simp
      · rw [if_neg hc]
        rw [ih acc h]
        simp only [List.filter_cons, hc]
        simp

/-- C9 (amended): `search_notebooks` filters a single, non-recursive
`workspace/list` of the directory at `path_prefix` (or the root `"/"`),
keeping exactly the NOTEBOOK entries of that one listing whose path
contains the query case-insensitively, capped at `max_results` (for any
positive `max_results`; notebooks in subdirectories of the prefix are
never examined). -/
theorem search_notebooks_amended (root : WsTree) (query : String)
    (maxResults : Nat) (pathPre : Option String) (h : 1 ≤ maxResults) :
    searchNotebooks root query maxResults pathPre =
      ((listWorkspaceObjects root (pathPre.getD "/")).filter (fun e =>
        e.objectType == "NOTEBOOK" && pyInLower query e.path)).take
          maxResults := by
  unfold searchNotebooks
  rw [searchLoop_eq query maxResults _ [] (by simpa using h)]
  simp

theorem search_notebooks_amended_witness :
    searchNotebooks (.directory "/" [.notebook "/nb1"]) "nb" 25 none =
      ((listWorkspaceObjects (.directory "/" [.notebook "/nb1"])
          ((none : Option String).getD "/")).filter (fun e =>
        e.objectType == "NOTEBOOK" && pyInLower "nb" e.path)).take 25 :=
  search_notebooks_amended (.directory "/" [.notebook "/nb1"]) "nb" 25 none
    (by decide)

/-- C9 counterexample: the listing is not recursive.  In a workspace
whose root contains a directory `/a` holding the notebook `/a/nb1`,
`search_notebooks("nb")` returns no results - the single
`workspace/list` call on `"/"` sees only the directory entry - whereas
the spec's recursive-listing search finds `/a/nb1`. -/
theorem search_notebooks_counterexample :
    searchNotebooks (.directory "/" [.directory "/a" [.notebook "/a/nb1"]])
      "nb" 25 none = [] ∧
    searchNotebooksSpecRecursive
        (.directory "/" [.directory "/a" [.notebook "/a/nb1"]]) "nb" 25 none =
      [⟨"/a/nb1", "NOTEBOOK"⟩] :=
  ⟨rfl, rfl⟩
